import Mathlib

/-!
Verification of the restaurant-reservation chatbot core against its
natural-language specification.

The development is a shallow embedding of the repository code:
* `utils.py` : `round_time_to_nearest_hour` over `String`/`List Char`;
* `tools.py` : the restaurant catalog (`find_restaurant`), the reservation
  ledger (`check_availability`, `make_reservation`) with the SQLite table
  modelled as a `List Reservation` and the executed SQL statements modelled
  as an explicit `DbOp` trace;
* `app.py`  : the bounded sequential tool-calling loop, with the external
  text-generation service, directive extraction and tool execution taken as
  function parameters (they are stubbed in the properties under test).

Machine integers do not overflow in any relevant range here, so party sizes
and capacities are modelled as `Int`/`Nat` directly.
-/

namespace Chatbot

/-! ## Time rounding (utils.py, round_time_to_nearest_hour) -/

/-- Numeric value of an ASCII digit character. -/
def digitVal (c : Char) : Nat := c.toNat - 48

/-- Zero code points of the decimal-digit (category Nd) ranges of Unicode
15.0, the table the CPython runtime of the source consults both for the
regex class `\d` and for `int` conversion; every Nd range consists of the
ten consecutive code points zero through nine. -/
def pyDigitZeros : List Nat :=
  [0x30, 0x660, 0x6F0, 0x7C0, 0x966, 0x9E6, 0xA66, 0xAE6, 0xB66, 0xBE6,
   0xC66, 0xCE6, 0xD66, 0xDE6, 0xE50, 0xED0, 0xF20, 0x1040, 0x1090, 0x17E0,
   0x1810, 0x1946, 0x19D0, 0x1A80, 0x1A90, 0x1B50, 0x1BB0, 0x1C40, 0x1C50,
   0xA620, 0xA8D0, 0xA900, 0xA9D0, 0xA9F0, 0xAA50, 0xABF0, 0xFF10,
   0x104A0, 0x10D30, 0x11066, 0x110F0, 0x11136, 0x111D0, 0x112F0, 0x11450,
   0x114D0, 0x11650, 0x116C0, 0x11730, 0x118E0, 0x11950, 0x11C50, 0x11D50,
   0x11DA0, 0x11F50, 0x16A60, 0x16AC0, 0x16B50, 0x1D7CE, 0x1D7D8, 0x1D7E2,
   0x1D7EC, 0x1D7F6, 0x1E140, 0x1E2F0, 0x1E4F0, 0x1E950, 0x1FBF0]

/-- Whether a character is a decimal digit in the sense of the regex
class `\d` of the source (any Unicode Nd digit, not only ASCII). -/
def pyIsDigit (c : Char) : Bool :=
  pyDigitZeros.any (fun z => decide (z ≤ c.toNat ∧ c.toNat ≤ z + 9))

/-- Numeric value of a decimal digit as computed by `int` conversion of
the source: the offset from the zero of its digit range. -/
def pyDigitVal (c : Char) : Nat :=
  match pyDigitZeros.find? (fun z => decide (z ≤ c.toNat ∧ c.toNat ≤ z + 9)) with
  | some z => c.toNat - z
  | none => 0

/-- Removal of one newline ending the input: the `$` anchor of the regex
in the source also matches just before a single newline at the end of the
string, and `int` conversion strips the whitespace that then remains in
the minute field. -/
def stripTrailingNewline (cs : List Char) : List Char :=
  if cs.getLast? = some '\n' then cs.dropLast else cs

/-- Parse of a (newline-stripped) string matching the regex core of the
source, namely one or two decimal digits, a colon, and exactly two
decimal digits; returns the hour and minute values read from the digits,
and none for every other shape.  Mirrors the regex test plus the
`split` / `int` conversion in `round_time_to_nearest_hour`. -/
def parseHHMM : List Char → Option (Nat × Nat)
  | [a, b, c, d] =>
    if pyIsDigit a ∧ b = ':' ∧ pyIsDigit c ∧ pyIsDigit d then
      some (pyDigitVal a, 10 * pyDigitVal c + pyDigitVal d)
    else none
  | [a, b, c, d, e] =>
    if pyIsDigit a ∧ pyIsDigit b ∧ c = ':' ∧ pyIsDigit d ∧ pyIsDigit e then
      some (10 * pyDigitVal a + pyDigitVal b, 10 * pyDigitVal d + pyDigitVal e)
    else none
  | _ => none

/-- Two-digit zero-padded rendering of a number below 100, as produced by
the format string in the source. -/
def twoDigit (n : Nat) : List Char :=
  [Char.ofNat (48 + n / 10), Char.ofNat (48 + n % 10)]

/-- Core of `round_time_to_nearest_hour` on character lists: regex check
(up to one trailing newline), hour/minute range validation, rounding up
from minute 30 with wrap-around at 24, and rendering as `HH:00`. -/
def round_list (cs : List Char) : Option (List Char) :=
  match parseHHMM (stripTrailingNewline cs) with
  | none => none
  | some (h, m) =>
    if h ≤ 23 ∧ m ≤ 59 then
      some (twoDigit (if 30 ≤ m then (h + 1) % 24 else h) ++ [':', '0', '0'])
    else none

/-- `round_time_to_nearest_hour` from `utils.py`. -/
def round_time_to_nearest_hour (s : String) : Option String :=
  (round_list s.data).map String.mk

/-! ### Claim-side description of the accepted time shape

The specification describes valid input as two numeric fields separated by
a colon with the hour in `[0,23]` and the minute in `[0,59]`.  The
following definitions formalise that wording independently of the regex in
the source, for comparison. -/

/-- Split a character list at its first colon, returning the parts before
and after; none if no colon occurs. -/
def splitFirstColon : List Char → Option (List Char × List Char)
  | [] => none
  | c :: cs =>
    if c = ':' then some ([], cs)
    else
      match splitFirstColon cs with
      | some (a, b) => some (c :: a, b)
      | none => none

/-- Decimal value of a digit field. -/
def fieldVal (cs : List Char) : Nat :=
  cs.foldl (fun a c => 10 * a + digitVal c) 0

/-- Modelled from the claim wording: the input consists of exactly two
nonempty all-digit fields separated by a colon; returns their numeric
values. -/
def claimTimeFields (cs : List Char) : Option (Nat × Nat) :=
  match splitFirstColon cs with
  | none => none
  | some (a, b) =>
    if a ≠ [] ∧ b ≠ [] ∧ (∀ c ∈ a, c.isDigit) ∧ (∀ c ∈ b, c.isDigit) then
      some (fieldVal a, fieldVal b)
    else none

/-- Decimal value of a field of Unicode decimal digits. -/
def fieldValPy (cs : List Char) : Nat :=
  cs.foldl (fun a c => 10 * a + pyDigitVal c) 0

/-- Two nonempty fields of Unicode decimal digits separated by a colon,
with their numeric values. -/
def claimFieldsCore (ds : List Char) : Option (Nat × Nat) :=
  match splitFirstColon ds with
  | none => none
  | some (a, b) =>
    if a ≠ [] ∧ b ≠ [] ∧ (∀ c ∈ a, pyIsDigit c) ∧ (∀ c ∈ b, pyIsDigit c) then
      some (fieldValPy a, fieldValPy b)
    else none

/-- The amended claim-side shape of an acceptable time: up to one
trailing newline, two nonempty fields of Unicode decimal digits separated
by a colon. -/
def claimTimeFieldsPy (cs : List Char) : Option (Nat × Nat) :=
  claimFieldsCore (stripTrailingNewline cs)

/-! ## Restaurant catalog (tools.py, find_restaurant) -/

/-- A catalog entry, as loaded from the static restaurant dataset. -/
structure Restaurant where
  id : String
  name : String
  location : String
  tags : List String
  capacity : Nat
  deriving DecidableEq, Repr

/-- Lower-casing of a string, as used for the case-insensitive matching
in `find_restaurant`.  Only the ASCII fragment of the lower-casing of the
source runtime is modelled; no theorem below depends on case mapping
outside ASCII. -/
def lowerStr (s : String) : String := String.mk (s.data.map Char.toLower)

/-- Whether `pat` occurs at the head of `cs`. -/
def leadingMatch : List Char → List Char → Bool
  | [], _ => true
  | _ :: _, [] => false
  | a :: as, b :: bs => a == b && leadingMatch as bs

/-- Whether `pat` occurs as a contiguous segment of `hay`; models the
Python `in` operator on strings. -/
def containsSeg (hay pat : List Char) : Bool :=
  match hay with
  | [] => pat.isEmpty
  | _ :: t => leadingMatch pat hay || containsSeg t pat

/-- The name filter of `find_restaurant`: skipped when the argument is
absent or empty (Python falsiness), otherwise a case-insensitive substring
test against the restaurant name. -/
def nameOk (nameF : Option String) (r : Restaurant) : Bool :=
  match nameF with
  | none => true
  | some n => if n = "" then true else containsSeg (lowerStr r.name).data (lowerStr n).data

/-- The location filter of `find_restaurant`, same shape as the name
filter. -/
def locationOk (locF : Option String) (r : Restaurant) : Bool :=
  match locF with
  | none => true
  | some l => if l = "" then true else containsSeg (lowerStr r.location).data (lowerStr l).data

/-- The tags filter of `find_restaurant`: skipped when absent or empty,
otherwise requires at least one requested tag to occur (case-insensitively)
among the restaurant tags. -/
def tagsOk (tagsF : Option (List String)) (r : Restaurant) : Bool :=
  match tagsF with
  | none => true
  | some ts =>
    if ts.isEmpty then true
    else ts.any (fun tag => (r.tags.map lowerStr).contains (lowerStr tag))

/-- The party-size filter of `find_restaurant`.  In the source the filter
block is guarded by `if party_size`, so the value 0 is falsy and skips the
filter entirely; a negative value reaches the inner `party_size <= 0`
check and excludes every restaurant; a positive value is compared with the
capacity. -/
def partyOk (psF : Option Int) (r : Restaurant) : Bool :=
  match psF with
  | none => true
  | some ps =>
    if ps = 0 then true
    else if ps ≤ 0 then false
    else decide (ps ≤ (r.capacity : Int))

/-- Conjunction of the four sequential filter blocks of
`find_restaurant`. -/
def is_match (nameF locF : Option String) (tagsF : Option (List String))
    (psF : Option Int) (r : Restaurant) : Bool :=
  nameOk nameF r && locationOk locF r && tagsOk tagsF r && partyOk psF r

/-- Result of `find_restaurant`: either the explicit no-results message or
the list of matching restaurants (the source serialises the same fields of
each match to JSON). -/
inductive FindResult
  | noneFound
  | found (rs : List Restaurant)
  deriving DecidableEq, Repr

/-- `find_restaurant` from `tools.py`, over an arbitrary catalog. -/
def find_restaurant (catalog : List Restaurant) (nameF locF : Option String)
    (tagsF : Option (List String)) (psF : Option Int) : FindResult :=
  let ms := catalog.filter (is_match nameF locF tagsF psF)
  if ms.isEmpty then FindResult.noneFound else FindResult.found ms

/-! ## Reservation ledger (tools.py, check_availability / make_reservation) -/

/-- A committed reservation row; `created_at` carries no information used
by any operation in scope and is omitted. -/
structure Reservation where
  id : Nat
  restaurant_id : String
  booking_date : String
  booking_time : String
  party_size : Int
  user_name : String
  user_phone : String
  deriving DecidableEq, Repr

/-- The SQL statements the ledger code executes against the reservations
table: the SELECT SUM aggregation over a slot, and the INSERT of a new
row. -/
inductive DbOp
  | sumQuery (restaurant_id booking_date booking_time : String)
  | insert (rv : Reservation)
  deriving DecidableEq, Repr

/-- Effect of one statement on the table contents. -/
def applyOp (db : List Reservation) : DbOp → List Reservation
  | DbOp.sumQuery _ _ _ => db
  | DbOp.insert rv => db ++ [rv]

/-- Effect of a statement sequence on the table contents. -/
def applyOps (db : List Reservation) (ops : List DbOp) : List Reservation :=
  ops.foldl applyOp db

/-- Row filter of the SELECT SUM query: same restaurant, date and (already
rounded) time. -/
def slotKeyMatches (rid d t : String) (rv : Reservation) : Bool :=
  rv.restaurant_id == rid && rv.booking_date == d && rv.booking_time == t

/-- The `SUM(party_size)` aggregate for one slot (`NULL` on an empty slot
is coalesced to 0 by the source, matching the sum over an empty list). -/
def slotSum (db : List Reservation) (rid d t : String) : Int :=
  ((db.filter (slotKeyMatches rid d t)).map Reservation.party_size).sum

/-- First catalog entry with the given id, mirroring the linear search
loop used by both ledger operations. -/
def findRestaurant (catalog : List Restaurant) (rid : String) : Option Restaurant :=
  catalog.find? (fun r => r.id == rid)

/-- The JSON object returned by `check_availability`.  The two fields that
are present only in the full availability report are modelled as options;
`none` means the key is absent from the returned object. -/
structure AvailabilityResult where
  available : Bool
  restaurant_id : String
  date : String
  time : String
  party_size : Int
  restaurant_capacity : Option Nat
  available_capacity : Option Int
  message : String
  deriving DecidableEq, Repr

/-- Failure payload of `check_availability` (shared shape of its early
returns). -/
def mkAvailFail (rid d t : String) (ps : Int) (msg : String) : AvailabilityResult :=
  { available := false, restaurant_id := rid, date := d, time := t, party_size := ps,
    restaurant_capacity := none, available_capacity := none, message := msg }

/-- `check_availability` from `tools.py`, returning the result together
with the trace of SQL statements executed. -/
def check_availability_run (catalog : List Restaurant) (db : List Reservation)
    (restaurant_id date time : String) (party_size : Int) :
    AvailabilityResult × List DbOp :=
  if party_size ≤ 0 then
    (mkAvailFail restaurant_id date time party_size
      "Party size must be a positive number.", [])
  else
    match findRestaurant catalog restaurant_id with
    | none =>
      (mkAvailFail restaurant_id date time party_size
        ("Restaurant with ID " ++ restaurant_id ++ " not found."), [])
    | some restaurant =>
      if (restaurant.capacity : Int) < party_size then
        (mkAvailFail restaurant_id date time party_size
          ("Sorry, this restaurant can only accommodate up to "
            ++ toString restaurant.capacity ++ " people in total."), [])
      else
        match round_time_to_nearest_hour time with
        | none =>
          (mkAvailFail restaurant_id date time party_size
            "Invalid time format. Please use HH:MM format.", [])
        | some rounded_time =>
          let total_booked := slotSum db restaurant_id date rounded_time
          let available_capacity := (restaurant.capacity : Int) - total_booked
          let is_available := decide (party_size ≤ available_capacity)
          let message :=
            if is_available then "Tables are available at this time!"
            else if total_booked = (restaurant.capacity : Int) then
              "Sorry, the restaurant is fully booked at " ++ rounded_time ++ "."
            else if 0 < available_capacity then
              "Sorry, we only have space for " ++ toString available_capacity
                ++ " more people at " ++ rounded_time ++ ", not " ++ toString party_size ++ "."
            else
              "Sorry, we don't have availability for " ++ toString party_size
                ++ " people at " ++ rounded_time ++ "."
          ({ available := is_available, restaurant_id := restaurant_id, date := date,
             time := rounded_time, party_size := party_size,
             restaurant_capacity := some restaurant.capacity,
             available_capacity := some available_capacity, message := message },
           [DbOp.sumQuery restaurant_id date rounded_time])

/-- The result value of `check_availability`. -/
def check_availability (catalog : List Restaurant) (db : List Reservation)
    (restaurant_id date time : String) (party_size : Int) : AvailabilityResult :=
  (check_availability_run catalog db restaurant_id date time party_size).1

/-- The JSON object returned by `make_reservation`; the fields present
only on success are options. -/
structure BookingResult where
  success : Bool
  reservation_id : Option String
  restaurant_id : String
  restaurant_name : Option String
  date : String
  time : String
  party_size : Int
  user_name : String
  user_phone : String
  message : String
  deriving DecidableEq, Repr

/-- Failure payload of `make_reservation` (shared shape of its negative
returns). -/
def mkBookingFail (rid d t : String) (ps : Int) (un up msg : String) : BookingResult :=
  { success := false, reservation_id := none, restaurant_id := rid,
    restaurant_name := none, date := d, time := t, party_size := ps,
    user_name := un, user_phone := up, message := msg }

/-- `make_reservation` from `tools.py`, returning the result and the trace
of SQL statements committed.  The branch where the restaurant lookup fails
inside the transaction corresponds to the `except` handler of the source
(the subscript on `None` raises there and the transaction is rolled back);
it is unreachable when the availability check has succeeded, and no claim
depends on its message text. -/
def make_reservation_run (catalog : List Restaurant) (db : List Reservation)
    (restaurant_id date time : String) (party_size : Int)
    (user_name user_phone : String) : BookingResult × List DbOp :=
  if user_name = "" ∨ user_phone = "" then
    (mkBookingFail restaurant_id date time party_size user_name user_phone
      "Name and phone number are required for reservation.", [])
  else
    let avail := check_availability catalog db restaurant_id date time party_size
    let availOps := (check_availability_run catalog db restaurant_id date time party_size).2
    if avail.available = false then
      (mkBookingFail restaurant_id date time party_size user_name user_phone
        avail.message, availOps)
    else
      let rounded_time := avail.time
      let total_booked := slotSum db restaurant_id date rounded_time
      match findRestaurant catalog restaurant_id with
      | none =>
        (mkBookingFail restaurant_id date rounded_time party_size user_name user_phone
          "Failed to make reservation: internal error.",
         availOps ++ [DbOp.sumQuery restaurant_id date rounded_time])
      | some restaurant =>
        let available_capacity := (restaurant.capacity : Int) - total_booked
        if available_capacity < party_size then
          (mkBookingFail restaurant_id date rounded_time party_size user_name user_phone
            ("Sorry, the restaurant became fully booked while processing your reservation. Only "
              ++ toString available_capacity ++ " seats available."),
           availOps ++ [DbOp.sumQuery restaurant_id date rounded_time])
        else
          ({ success := true,
             reservation_id := some ("res" ++ toString (db.length + 1)),
             restaurant_id := restaurant_id,
             restaurant_name := some restaurant.name,
             date := date, time := rounded_time, party_size := party_size,
             user_name := user_name, user_phone := user_phone,
             message := "Your reservation at " ++ restaurant.name ++ " for "
               ++ toString party_size ++ " people on " ++ date ++ " at " ++ rounded_time
               ++ " has been confirmed!" },
           availOps ++ [DbOp.sumQuery restaurant_id date rounded_time,
                        DbOp.insert
                          { id := db.length + 1, restaurant_id := restaurant_id,
                            booking_date := date, booking_time := rounded_time,
                            party_size := party_size, user_name := user_name,
                            user_phone := user_phone }])

/-- `make_reservation` as a state transformer: the result together with
the table contents after the call. -/
def make_reservation (catalog : List Restaurant) (db : List Reservation)
    (restaurant_id date time : String) (party_size : Int)
    (user_name user_phone : String) : BookingResult × List Reservation :=
  let run := make_reservation_run catalog db restaurant_id date time party_size
    user_name user_phone
  (run.1, applyOps db run.2)

/-- Arguments of one `make_reservation` call. -/
structure BookingRequest where
  restaurant_id : String
  date : String
  time : String
  party_size : Int
  user_name : String
  user_phone : String
  deriving DecidableEq, Repr

/-- Table contents after a sequence of `make_reservation` calls applied to
an initial table. -/
def runReservations (catalog : List Restaurant) :
    List BookingRequest → List Reservation → List Reservation
  | [], db => db
  | a :: rest, db =>
    runReservations catalog rest
      (make_reservation catalog db a.restaurant_id a.date a.time a.party_size
        a.user_name a.user_phone).2

/-- The capacity invariant: for every slot of a catalog restaurant, the
committed party sizes sum to at most the capacity. -/
def CapacityInv (catalog : List Restaurant) (db : List Reservation) : Prop :=
  ∀ rid d t r, findRestaurant catalog rid = some r →
    slotSum db rid d t ≤ (r.capacity : Int)

/-! ## Conversation orchestrator (app.py, sequential tool calling loop)

The text-generation request (together with the response cleaning), the
directive extraction and the tool invocation all cross the boundary to
external collaborators and are taken as function parameters `gen`,
`extract` and `dispatch`; the loop itself — iteration bound, counter,
history bookkeeping, and choice of the final answer — is the embedded
code.  `dispatch` returns `Except` to model the try/except around the
tool call: `Except.error` is the captured tool-level failure. -/

/-- One entry of the conversation history kept for the model. -/
structure Msg where
  role : String
  content : String
  deriving DecidableEq, Repr

/-- A parsed function-call directive: operation name and parameter
mapping. -/
structure Directive where
  name : String
  params : List (String × String)
  deriving DecidableEq, Repr

/-- The keys of the static tool registry `tool_map`. -/
def tool_map_names : List String :=
  ["find_restaurant", "check_availability", "make_reservation"]

/-- Registry membership test (`function_name in tools.tool_map`). -/
def knownTool (n : String) : Bool := tool_map_names.contains n

/-- `MAX_SEQUENTIAL_CALLS` from `app.py`. -/
def MAX_SEQUENTIAL_CALLS : Nat := 4

/-- The sequential tool-calling loop of `app.py`.  The fuel argument is
the number of remaining admissible iterations, i.e.
`MAX_SEQUENTIAL_CALLS - tool_call_count`; the loop runs while the counter
is below the maximum.  Returns the `final_assistant_response` variable
(`none` when it was never assigned), the history, and the final counter
value. -/
def sequentialToolLoop (gen : List Msg → String) (extract : String → Option Directive)
    (dispatch : Directive → Except String String) :
    Nat → List Msg → Nat → Option String × List Msg × Nat
  | 0, msgs, cnt => (none, msgs, cnt)
  | Nat.succ fuel, msgs, cnt =>
    let text := gen msgs
    match extract text with
    | some fc =>
      if knownTool fc.name then
        match dispatch fc with
        | Except.ok tool_result =>
          sequentialToolLoop gen extract dispatch fuel
            (msgs ++ [{ role := "assistant", content := text },
                      { role := "user", content := "Function result: " ++ tool_result }])
            (cnt + 1)
        | Except.error e =>
          sequentialToolLoop gen extract dispatch fuel
            (msgs ++ [{ role := "assistant", content := text },
                      { role := "user", content := "Error calling function: " ++ e }])
            (cnt + 1)
      else
        (some text,
         msgs ++ [{ role := "assistant", content := text },
                  { role := "user", content := "Invalid function name: " ++ fc.name }],
         cnt)
    | none =>
      (some text, msgs ++ [{ role := "assistant", content := text }], cnt)

/-- One full conversation turn: the loop entered with counter 0. -/
def runTurn (gen : List Msg → String) (extract : String → Option Directive)
    (dispatch : Directive → Except String String) (msgs : List Msg) :
    Option String × List Msg × Nat :=
  sequentialToolLoop gen extract dispatch MAX_SEQUENTIAL_CALLS msgs 0

/-- Stub generation service that always produces the same text. -/
def stubGen : List Msg → String := fun _ => "calling the tool"

/-- Stub extractor that always finds a directive for a registered
operation. -/
def stubExtractKnown : String → Option Directive :=
  fun _ => some { name := "find_restaurant", params := [] }

/-- Stub extractor that always finds a directive whose name is not in the
registry. -/
def stubExtractUnknown : String → Option Directive :=
  fun _ => some { name := "teleport", params := [] }

/-- Stub tool execution that always succeeds with a fixed result text. -/
def stubDispatch : Directive → Except String String := fun _ => Except.ok "ok"

/-! ## Concrete data used by the closed test cases -/

/-- A capacity-4 restaurant. -/
def r1 : Restaurant :=
  { id := "r1", name := "Bistro", location := "Town", tags := ["thai"], capacity := 4 }

/-- A one-restaurant catalog of capacity 4. -/
def cap4Catalog : List Restaurant := [r1]

/-- First booking of the end-to-end scenario: party of 3 at the empty
slot. -/
def e2eStep1 : BookingResult × List Reservation :=
  make_reservation cap4Catalog [] "r1" "2025-05-01" "19:00" 3 "Alice" "12345"

/-- Second booking of the scenario: party of 2 at the same slot. -/
def e2eStep2 : BookingResult × List Reservation :=
  make_reservation cap4Catalog e2eStep1.2 "r1" "2025-05-01" "19:00" 2 "Bob" "23456"

/-- Third booking of the scenario: party of 1 at the same slot. -/
def e2eStep3 : BookingResult × List Reservation :=
  make_reservation cap4Catalog e2eStep2.2 "r1" "2025-05-01" "19:00" 1 "Cara" "34567"

/-! ## Helper lemmas -/

/-- Statement traces compose by sequencing. -/
theorem applyOps_append (db : List Reservation) (xs ys : List DbOp) :
    applyOps db (xs ++ ys) = applyOps (applyOps db xs) ys :=
  List.foldl_append _ _ _ _

/-- Every statement `check_availability` executes is a SELECT, so its
trace leaves any table contents unchanged. -/
theorem check_availability_run_ops_read (catalog : List Restaurant)
    (db db0 : List Reservation) (rid d t : String) (ps : Int) :
    applyOps db0 (check_availability_run catalog db rid d t ps).2 = db0 := by
  unfold check_availability_run
  split
  · rfl
  · split
    · rfl
    · split
      · rfl
      · split
        · rfl
        · rfl

/-- A lone SELECT leaves the table unchanged. -/
theorem applyOps_sumQuery (db : List Reservation) (a b c : String) :
    applyOps db [DbOp.sumQuery a b c] = db := rfl

/-- A SELECT followed by an INSERT appends exactly the inserted row. -/
theorem applyOps_sumQuery_insert (db : List Reservation) (a b c : String)
    (rv : Reservation) :
    applyOps db [DbOp.sumQuery a b c, DbOp.insert rv] = db ++ [rv] := rfl

/-- Appending one row changes a slot sum by the party size of the row
exactly when the row belongs to the slot. -/
theorem slotSum_append (db : List Reservation) (x : Reservation) (rid d t : String) :
    slotSum (db ++ [x]) rid d t =
      slotSum db rid d t + (if slotKeyMatches rid d t x then x.party_size else 0) := by
  by_cases hm : slotKeyMatches rid d t x <;>
    simp [slotSum, List.filter_append, hm]

/-- The empty ledger satisfies the capacity invariant. -/
theorem capacityInv_nil (catalog : List Restaurant) : CapacityInv catalog [] := by
  intro rid d t r _
  simp [slotSum]

/-! ## C10: check_availability never modifies the ledger -/

/-- C10: `check_availability` never modifies the reservation ledger: for
every catalog, ledger and input, replaying the SQL statements it executes
leaves the ledger as it was — the operation only reads the booked
totals. -/
theorem check_availability_reads_only (catalog : List Restaurant) (db : List Reservation)
    (rid d t : String) (ps : Int) :
    applyOps db (check_availability_run catalog db rid d t ps).2 = db :=
  check_availability_run_ops_read catalog db db rid d t ps

/-! ## C8: make_reservation fails fast without touching the ledger -/

/-- C8: whenever `user_name` or `user_phone` is empty, or the availability
check against the current state is negative, `make_reservation` returns a
structured negative result and leaves the reservation ledger unchanged. -/
theorem make_reservation_fail_fast (catalog : List Restaurant) (db : List Reservation)
    (rid d t : String) (ps : Int) (un up : String)
    (h : un = "" ∨ up = "" ∨ (check_availability catalog db rid d t ps).available = false) :
    (make_reservation catalog db rid d t ps un up).2 = db ∧
    (make_reservation catalog db rid d t ps un up).1.success = false := by
  by_cases h1 : un = "" ∨ up = ""
  · constructor <;> simp [make_reservation, make_reservation_run, h1, applyOps, mkBookingFail]
  · have h2 : (check_availability catalog db rid d t ps).available = false := by tauto
    constructor
    · simp [make_reservation, make_reservation_run, h1, h2,
        check_availability_run_ops_read]
    · simp [make_reservation, make_reservation_run, h1, h2, mkBookingFail]

/-- Closed instance of `make_reservation_fail_fast` at a concrete input
with an empty user name. -/
theorem make_reservation_fail_fast_witness :
    (("" : String) = "" ∨ ("123" : String) = "" ∨
      (check_availability cap4Catalog [] "r1" "2025-05-01" "19:00" 2).available = false) ∧
    (make_reservation cap4Catalog [] "r1" "2025-05-01" "19:00" 2 "" "123").2 = [] ∧
    (make_reservation cap4Catalog [] "r1" "2025-05-01" "19:00" 2 "" "123").1.success = false :=
  ⟨Or.inl rfl,
   make_reservation_fail_fast cap4Catalog [] "r1" "2025-05-01" "19:00" 2 "" "123" (Or.inl rfl)⟩

/-! ## C2: loop exhaustion (code bug: the final answer is never set) -/

/-- C2: with a stub generation service that always yields a well-formed
directive naming a registered operation, the loop does perform exactly
`MAX_SEQUENTIAL_CALLS` (4) tool dispatches and stop — but the
user-visible final answer is `none`: the `final_assistant_response`
variable is never assigned on the exhaustion path, so the code displays
`None` rather than the text produced by the last iteration (which was
"calling the tool"). -/
theorem orchestrator_exhaustion_returns_no_text :
    (runTurn stubGen stubExtractKnown stubDispatch []).2.2 = MAX_SEQUENTIAL_CALLS ∧
    (runTurn stubGen stubExtractKnown stubDispatch []).1 = none ∧
    stubGen [] = "calling the tool" :=
  ⟨rfl, rfl, rfl⟩

/-! ## C3: find_restaurant with party_size = 0 (code bug: filter skipped) -/

/-- C3: evaluating `find_restaurant` with no other filters and
`party_size = 0` on a one-restaurant catalog returns the whole catalog,
not zero matches: the party-size filter block is guarded by the truthiness
of the argument, so the value 0 skips the filter (the inner
`party_size <= 0` check is unreachable for 0). -/
theorem find_restaurant_party_size_zero_returns_all :
    find_restaurant cap4Catalog none none none (some 0) = FindResult.found cap4Catalog := by
  decide

/-! ## C7: end-to-end booking scenario at a capacity-4 restaurant -/

/-- C7: starting from an empty slot at the capacity-4 restaurant, booking
a party of 3 succeeds; a second booking for 2 at the same slot fails with
the message that only 1 seat remains and leaves the ledger unchanged; a
third booking for 1 succeeds and brings the slot total to exactly the
capacity of 4. -/
theorem booking_sequence_end_to_end :
    e2eStep1.1.success = true ∧
    e2eStep2.1.success = false ∧
    e2eStep2.1.message = "Sorry, we only have space for 1 more people at 19:00, not 2." ∧
    e2eStep2.2 = e2eStep1.2 ∧
    e2eStep3.1.success = true ∧
    slotSum e2eStep3.2 "r1" "2025-05-01" "19:00" = 4 ∧
    r1.capacity = 4 := by
  decide

/-! ## C4: check_availability (corrected: the total-capacity branch) -/

/-- C4 counterexample: for the capacity-4 restaurant with zero bookings
and `party_size = 5`, the result is negative with an insufficient-capacity
message, but the `available_capacity` key is absent (`none`) instead of
carrying `capacity - booked = 4` as the claim requires — the source
returns early from a fourth branch (`party_size > capacity`) that precedes
time validation and omits the capacity fields.  The last three conjuncts
record that none of the three failure conditions the claim lists holds at
this input. -/
theorem check_availability_overcapacity_counterexample :
    (check_availability cap4Catalog [] "r1" "2025-05-01" "19:00" 5).available = false ∧
    (check_availability cap4Catalog [] "r1" "2025-05-01" "19:00" 5).available_capacity = none ∧
    (check_availability cap4Catalog [] "r1" "2025-05-01" "19:00" 5).message =
      "Sorry, this restaurant can only accommodate up to 4 people in total." ∧
    (0 : Int) < 5 ∧
    findRestaurant cap4Catalog "r1" = some r1 ∧
    round_time_to_nearest_hour "19:00" = some "19:00" := by
  decide

/-! ## C5 / C6: time rounding -/

/-- Every accepted time rounds to a two-digit on-the-hour rendering of an
hour below 24. -/
theorem round_list_shape (cs l : List Char) (h : round_list cs = some l) :
    ∃ n, n ≤ 23 ∧ l = twoDigit n ++ [':', '0', '0'] := by
  unfold round_list at h
  split at h
  · cases h
  · next hh mm heq =>
    split at h
    · next hrange =>
      refine ⟨if 30 ≤ mm then (hh + 1) % 24 else hh, ?_, (Option.some.inj h).symm⟩
      by_cases h30 : 30 ≤ mm
      · rw [if_pos h30]; omega
      · rw [if_neg h30]; exact hrange.1
    · cases h

/-- Rounding any already-rounded hour below 24 returns it unchanged. -/
theorem round_list_rounded_fixed : ∀ n : Nat, n < 24 →
    round_list (twoDigit n ++ [':', '0', '0']) = some (twoDigit n ++ [':', '0', '0']) := by
  decide

/-- C5: time rounding is idempotent — whenever
`round_time_to_nearest_hour` accepts a time string, applying it again to
the result returns the same value. -/
theorem round_time_idempotent (s r : String)
    (h : round_time_to_nearest_hour s = some r) :
    round_time_to_nearest_hour r = some r := by
  unfold round_time_to_nearest_hour at h ⊢
  obtain ⟨l, hl, rfl⟩ := Option.map_eq_some'.mp h
  obtain ⟨n, hn, rfl⟩ := round_list_shape _ _ hl
  have hdata : (String.mk (twoDigit n ++ [':', '0', '0'])).data
      = twoDigit n ++ [':', '0', '0'] := rfl
  rw [hdata, round_list_rounded_fixed n (by omega)]
  rfl

/-- Closed instance of `round_time_idempotent`: rounding "10:15" gives
"10:00", and rounding that again gives "10:00". -/
theorem round_time_idempotent_witness :
    round_time_to_nearest_hour "10:15" = some "10:00" ∧
    round_time_to_nearest_hour "10:00" = some "10:00" :=
  ⟨by decide, round_time_idempotent "10:15" "10:00" (by decide)⟩

/-- Decimal digits are not colons. -/
theorem pyDigit_ne_colon (c : Char) (h : pyIsDigit c = true) : ¬ c = ':' := by
  intro hc; subst hc; exact absurd h (by decide)

/-- Every newline-stripped string the regex core of the source accepts
also consists of two nonempty decimal-digit fields separated by a colon,
with the same parsed hour and minute. -/
theorem parseHHMM_claimFields (cs : List Char) (hh mm : Nat)
    (h : parseHHMM cs = some (hh, mm)) : claimFieldsCore cs = some (hh, mm) := by
  rcases cs with _ | ⟨a, _ | ⟨b, _ | ⟨c, _ | ⟨d, _ | ⟨e, _ | rest⟩⟩⟩⟩⟩
  · exact Option.noConfusion h
  · exact Option.noConfusion h
  · exact Option.noConfusion h
  · exact Option.noConfusion h
  · simp only [parseHHMM] at h
    split at h
    · next hcond =>
      obtain ⟨ha, hb, hc, hd⟩ := hcond
      subst hb
      obtain ⟨h1, h2⟩ := Prod.mk.injEq .. ▸ Option.some.inj h
      simp [claimFieldsCore, splitFirstColon, pyDigit_ne_colon a ha, ha, hc, hd,
        fieldValPy, ← h1, ← h2]
    · cases h
  · simp only [parseHHMM] at h
    split at h
    · next hcond =>
      obtain ⟨ha, hb, hc, hd, he⟩ := hcond
      subst hc
      obtain ⟨h1, h2⟩ := Prod.mk.injEq .. ▸ Option.some.inj h
      simp [claimFieldsCore, splitFirstColon, pyDigit_ne_colon a ha, pyDigit_ne_colon b hb,
        ha, hb, hd, he, fieldValPy, ← h1, ← h2]
    · cases h
  · exact Option.noConfusion h

/-- Acceptance characterisation of the rounding core against the amended
claim shape: an accepted input has, up to one trailing newline, two
in-range decimal-digit fields, and the output is the claimed rounding of
them. -/
theorem round_list_claim (cs l : List Char) (h : round_list cs = some l) :
    ∃ hh mm, claimTimeFieldsPy cs = some (hh, mm) ∧ hh ≤ 23 ∧ mm ≤ 59 ∧
      l = twoDigit (if 30 ≤ mm then (hh + 1) % 24 else hh) ++ [':', '0', '0'] := by
  unfold round_list at h
  split at h
  · cases h
  · next hh mm heq =>
    split at h
    · next hrange =>
      exact ⟨hh, mm, parseHHMM_claimFields _ hh mm heq, hrange.1, hrange.2,
        (Option.some.inj h).symm⟩
    · cases h

/-- C6 counterexample: the claim says every input that does not consist
of two numeric fields separated by a colon is rejected, but the source
accepts "10:15\n" and rounds it to "10:00" — the `$` anchor of its regex
also matches just before a newline ending the string, and `int` strips
the whitespace left in the minute field. -/
theorem round_time_newline_counterexample :
    round_time_to_nearest_hour "10:15\n" = some "10:00" ∧
    claimTimeFields ("10:15\n".data) = none := by
  decide

/-- C6 as amended: `round_time_to_nearest_hour` rejects every input that
does not consist — up to one trailing newline — of two fields of Unicode
decimal digits separated by a colon with hour in `[0,23]` and minute in
`[0,59]`; on every accepted input, minutes at least 30 round the hour up
modulo 24 and minutes are zeroed, otherwise the hour is kept and minutes
zeroed; the five concrete cases of the claim hold, including the
rejection of "9:5" (the regex demands a two-digit minute field); and the
inputs the original claim shape misses are accepted: a trailing-newline
time and a Unicode-digit time. -/
theorem round_time_format_spec_amended :
    (∀ s : String, claimTimeFieldsPy s.data = none → round_time_to_nearest_hour s = none) ∧
    (∀ (s : String) (hh mm : Nat), claimTimeFieldsPy s.data = some (hh, mm) →
       23 < hh ∨ 59 < mm → round_time_to_nearest_hour s = none) ∧
    (∀ (s r : String), round_time_to_nearest_hour s = some r →
       ∃ hh mm, claimTimeFieldsPy s.data = some (hh, mm) ∧ hh ≤ 23 ∧ mm ≤ 59 ∧
         r = String.mk (twoDigit (if 30 ≤ mm then (hh + 1) % 24 else hh) ++ [':', '0', '0'])) ∧
    round_time_to_nearest_hour "10:15" = some "10:00" ∧
    round_time_to_nearest_hour "10:30" = some "11:00" ∧
    round_time_to_nearest_hour "23:45" = some "00:00" ∧
    round_time_to_nearest_hour "9:5" = none ∧
    round_time_to_nearest_hour "24:00" = none ∧
    round_time_to_nearest_hour "10:15\n" = some "10:00" ∧
    round_time_to_nearest_hour "٢٣:٤٥" = some "00:00" := by
  have key : ∀ (s r : String), round_time_to_nearest_hour s = some r →
      ∃ hh mm, claimTimeFieldsPy s.data = some (hh, mm) ∧ hh ≤ 23 ∧ mm ≤ 59 ∧
        r = String.mk (twoDigit (if 30 ≤ mm then (hh + 1) % 24 else hh) ++ [':', '0', '0']) := by
    intro s r h
    unfold round_time_to_nearest_hour at h
    obtain ⟨l, hl, rfl⟩ := Option.map_eq_some'.mp h
    obtain ⟨hh, mm, hcf, hhle, hmle, rfl⟩ := round_list_claim _ _ hl
    exact ⟨hh, mm, hcf, hhle, hmle, rfl⟩
  refine ⟨?_, ?_, key, by decide, by decide, by decide, by decide, by decide,
    by decide, by decide⟩
  · intro s hnone
    cases hr : round_time_to_nearest_hour s with
    | none => rfl
    | some r =>
      obtain ⟨hh, mm, hcf, _, _, _⟩ := key s r hr
      rw [hcf] at hnone
      cases hnone
  · intro s hh mm hcf hout
    cases hr : round_time_to_nearest_hour s with
    | none => rfl
    | some r =>
      obtain ⟨hh2, mm2, hcf2, hhle, hmle, _⟩ := key s r hr
      rw [hcf] at hcf2
      obtain ⟨e1, e2⟩ := Prod.mk.injEq .. ▸ Option.some.inj hcf2
      omega

/-- Closed instances of `round_time_format_spec_amended`: rejection of a
colon-free string and of an out-of-range hour, and acceptance of
"10:15". -/
theorem round_time_format_spec_amended_witness :
    claimTimeFieldsPy ("abc".data) = none ∧
    claimTimeFieldsPy ("24:00".data) = some (24, 0) ∧
    round_time_to_nearest_hour "abc" = none ∧
    round_time_to_nearest_hour "24:00" = none ∧
    (∃ hh mm, claimTimeFieldsPy ("10:15".data) = some (hh, mm) ∧ hh ≤ 23 ∧ mm ≤ 59 ∧
      ("10:00" : String) = String.mk (twoDigit (if 30 ≤ mm then (hh + 1) % 24 else hh)
        ++ [':', '0', '0'])) :=
  ⟨by decide, by decide,
   round_time_format_spec_amended.1 "abc" (by decide),
   round_time_format_spec_amended.2.1 "24:00" 24 0 (by decide) (Or.inl (by decide)),
   round_time_format_spec_amended.2.2.1 "10:15" "10:00" (by decide)⟩

/-- C4 as amended: `check_availability` returns a structured negative
result when `party_size <= 0`, when the restaurant id is unknown, when the
party size exceeds the restaurant's total capacity (a branch checked
before time validation, whose result carries no `available_capacity`
field), or when the time fails to parse; in every remaining case it
reports `available = (capacity - booked for the rounded slot) >=
party_size` together with `available_capacity = capacity - booked`.  For
the capacity-4 restaurant with zero bookings, `party_size = 4` reports
available with `available_capacity = 4`. -/
theorem check_availability_amended :
    (∀ (catalog : List Restaurant) (db : List Reservation) (rid d t : String) (ps : Int),
       ps ≤ 0 → check_availability catalog db rid d t ps =
         mkAvailFail rid d t ps "Party size must be a positive number.") ∧
    (∀ (catalog : List Restaurant) (db : List Reservation) (rid d t : String) (ps : Int),
       0 < ps → findRestaurant catalog rid = none →
       check_availability catalog db rid d t ps =
         mkAvailFail rid d t ps ("Restaurant with ID " ++ rid ++ " not found.")) ∧
    (∀ (catalog : List Restaurant) (db : List Reservation) (rid d t : String) (ps : Int) r,
       0 < ps → findRestaurant catalog rid = some r → (r.capacity : Int) < ps →
       check_availability catalog db rid d t ps =
         mkAvailFail rid d t ps ("Sorry, this restaurant can only accommodate up to "
           ++ toString r.capacity ++ " people in total.")) ∧
    (∀ (catalog : List Restaurant) (db : List Reservation) (rid d t : String) (ps : Int) r,
       0 < ps → findRestaurant catalog rid = some r → ps ≤ (r.capacity : Int) →
       round_time_to_nearest_hour t = none →
       check_availability catalog db rid d t ps =
         mkAvailFail rid d t ps "Invalid time format. Please use HH:MM format.") ∧
    (∀ (catalog : List Restaurant) (db : List Reservation) (rid d t : String) (ps : Int) r rt,
       0 < ps → findRestaurant catalog rid = some r → ps ≤ (r.capacity : Int) →
       round_time_to_nearest_hour t = some rt →
       (check_availability catalog db rid d t ps).available
           = decide (ps ≤ (r.capacity : Int) - slotSum db rid d rt) ∧
       (check_availability catalog db rid d t ps).available_capacity
           = some ((r.capacity : Int) - slotSum db rid d rt) ∧
       (check_availability catalog db rid d t ps).time = rt) ∧
    ((check_availability cap4Catalog [] "r1" "2025-05-01" "19:00" 4).available = true ∧
     (check_availability cap4Catalog [] "r1" "2025-05-01" "19:00" 4).available_capacity
       = some 4) := by
  refine ⟨?_, ?_, ?_, ?_, ?_, by decide⟩
  · intro catalog db rid d t ps hps
    simp [check_availability, check_availability_run, hps]
  · intro catalog db rid d t ps hps hf
    simp [check_availability, check_availability_run, hf, show ¬ ps ≤ 0 by omega]
  · intro catalog db rid d t ps r hps hf hcap
    simp [check_availability, check_availability_run, hf, hcap, show ¬ ps ≤ 0 by omega]
  · intro catalog db rid d t ps r hps hf hcap hrt
    simp [check_availability, check_availability_run, hf, hrt,
      show ¬ ps ≤ 0 by omega, show ¬ (r.capacity : Int) < ps by omega]
  · intro catalog db rid d t ps r rt hps hf hcap hrt
    refine ⟨?_, ?_, ?_⟩ <;>
      simp [check_availability, check_availability_run, hf, hrt,
        show ¬ ps ≤ 0 by omega, show ¬ (r.capacity : Int) < ps by omega]

/-- Closed instance of `check_availability_amended`: at the capacity-4
restaurant with an empty ledger, a known id, a positive in-capacity party
size and a parsable time, the full availability report carries
`available_capacity = capacity - booked`. -/
theorem check_availability_amended_witness :
    (0 : Int) < 2 ∧
    findRestaurant cap4Catalog "r1" = some r1 ∧
    (2 : Int) ≤ (r1.capacity : Int) ∧
    round_time_to_nearest_hour "10:15" = some "10:00" ∧
    (check_availability cap4Catalog [] "r1" "2025-05-01" "10:15" 2).available_capacity
      = some ((r1.capacity : Int) - slotSum [] "r1" "2025-05-01" "10:00") :=
  ⟨by decide, by decide, by decide, by decide,
   (check_availability_amended.2.2.2.2.1 cap4Catalog [] "r1" "2025-05-01" "10:15" 2 r1 "10:00"
     (by decide) (by decide) (by decide) (by decide)).2.1⟩

/-! ## C9: unknown operation name terminates the loop -/

/-- C9: when the extracted directive names an operation outside the
registry, the loop returns on that iteration without incrementing the
tool-call counter; the model text and the invalid-operation description
are appended to the history, and the final answer is the model's own text
from that iteration, not the error description. -/
theorem unknown_operation_terminates_loop
    (gen : List Msg → String) (extract : String → Option Directive)
    (dispatch : Directive → Except String String)
    (fuel : Nat) (msgs : List Msg) (cnt : Nat) (fc : Directive)
    (hex : extract (gen msgs) = some fc) (hunk : knownTool fc.name = false) :
    sequentialToolLoop gen extract dispatch (fuel + 1) msgs cnt =
      (some (gen msgs),
       msgs ++ [{ role := "assistant", content := gen msgs },
                { role := "user", content := "Invalid function name: " ++ fc.name }],
       cnt) := by
  simp [sequentialToolLoop, hex, hunk]

/-- Closed instance of `unknown_operation_terminates_loop` with the
unknown-name stub extractor, entered with the full iteration budget. -/
theorem unknown_operation_terminates_loop_witness :
    stubExtractUnknown (stubGen []) = some { name := "teleport", params := [] } ∧
    knownTool "teleport" = false ∧
    sequentialToolLoop stubGen stubExtractUnknown stubDispatch 4 [] 0 =
      (some "calling the tool",
       [{ role := "assistant", content := "calling the tool" },
        { role := "user", content := "Invalid function name: teleport" }],
       0) := by
  refine ⟨rfl, rfl, ?_⟩
  have h := unknown_operation_terminates_loop stubGen stubExtractUnknown stubDispatch
    3 [] 0 { name := "teleport", params := [] } rfl rfl
  simpa using h

/-! ## C1: the capacity invariant under sequences of bookings -/

/-- Outcome analysis of one `make_reservation` call: either the ledger is
unchanged and the result is negative, or the restaurant exists, the
transactional re-check guaranteed room for the party at the rounded slot,
and exactly the one new row was appended. -/
theorem make_reservation_cases (catalog : List Restaurant) (db : List Reservation)
    (rid d t : String) (ps : Int) (un up : String) :
    ((make_reservation catalog db rid d t ps un up).2 = db ∧
     (make_reservation catalog db rid d t ps un up).1.success = false) ∨
    (∃ restaurant rt, findRestaurant catalog rid = some restaurant ∧
       ps ≤ (restaurant.capacity : Int) - slotSum db rid d rt ∧
       (make_reservation catalog db rid d t ps un up).2 =
         db ++ [{ id := db.length + 1, restaurant_id := rid, booking_date := d,
                  booking_time := rt, party_size := ps, user_name := un,
                  user_phone := up }]) := by
  by_cases h1 : un = "" ∨ up = ""
  · left
    constructor <;> simp [make_reservation, make_reservation_run, h1, applyOps, mkBookingFail]
  · by_cases h2 : (check_availability catalog db rid d t ps).available = false
    · left
      constructor
      · simp [make_reservation, make_reservation_run, h1, h2,
          check_availability_run_ops_read]
      · simp [make_reservation, make_reservation_run, h1, h2, mkBookingFail]
    · cases hf : findRestaurant catalog rid with
      | none =>
        left
        constructor
        · simp [make_reservation, make_reservation_run, h1, h2, hf, applyOps_append,
            check_availability_run_ops_read, applyOps_sumQuery]
        · simp [make_reservation, make_reservation_run, h1, h2, hf, mkBookingFail]
      | some restaurant =>
        by_cases h4 : (restaurant.capacity : Int)
            - slotSum db rid d (check_availability catalog db rid d t ps).time < ps
        · left
          constructor
          · simp [make_reservation, make_reservation_run, h1, h2, hf, h4, applyOps_append,
              check_availability_run_ops_read, applyOps_sumQuery]
          · simp [make_reservation, make_reservation_run, h1, h2, hf, h4, mkBookingFail]
        · right
          refine ⟨restaurant, (check_availability catalog db rid d t ps).time, rfl,
            by omega, ?_⟩
          simp [make_reservation, make_reservation_run, h1, h2, hf, h4, applyOps_append,
            check_availability_run_ops_read, applyOps_sumQuery_insert]

/-- One `make_reservation` call preserves the capacity invariant, and
either leaves the ledger unchanged with a negative result or appends
exactly one reservation. -/
theorem make_reservation_step (catalog : List Restaurant) (db : List Reservation)
    (rid d t : String) (ps : Int) (un up : String)
    (hInv : CapacityInv catalog db) :
    CapacityInv catalog (make_reservation catalog db rid d t ps un up).2 ∧
    ((make_reservation catalog db rid d t ps un up).2 = db ∧
       (make_reservation catalog db rid d t ps un up).1.success = false ∨
     ∃ rv, (make_reservation catalog db rid d t ps un up).2 = db ++ [rv]) := by
  rcases make_reservation_cases catalog db rid d t ps un up with
    ⟨hdb, hs⟩ | ⟨restaurant, rt, hf, hcap, hdb⟩
  · refine ⟨?_, Or.inl ⟨hdb, hs⟩⟩
    rw [hdb]; exact hInv
  · constructor
    · rw [hdb]
      intro rid' d' t' r' hf'
      rw [slotSum_append]
      split
      · next hm =>
        simp only [slotKeyMatches, Bool.and_eq_true, beq_iff_eq] at hm
        obtain ⟨⟨e1, e2⟩, e3⟩ := hm
        subst e1; subst e2; subst e3
        rw [hf] at hf'
        have hrr : restaurant = r' := Option.some.inj hf'
        subst hrr
        have hgoal : slotSum db rid d rt + ps ≤ (restaurant.capacity : Int) := by omega
        simpa using hgoal
      · next hm =>
        have := hInv rid' d' t' r' hf'
        omega
    · exact Or.inr ⟨_, hdb⟩

/-- The capacity invariant is preserved along any sequence of
`make_reservation` calls. -/
theorem runReservations_inv (catalog : List Restaurant) (reqs : List BookingRequest)
    (db : List Reservation) (hInv : CapacityInv catalog db) :
    CapacityInv catalog (runReservations catalog reqs db) := by
  induction reqs generalizing db with
  | nil => exact hInv
  | cons a rest ih =>
    exact ih _ (make_reservation_step catalog db a.restaurant_id a.date a.time
      a.party_size a.user_name a.user_phone hInv).1

/-- C1: for every sequence of `make_reservation` calls starting from the
empty ledger, the committed party sizes of every slot sum to at most the
restaurant's capacity; moreover each single call on a ledger satisfying
the invariant either leaves the ledger unchanged and returns a negative
result, or appends exactly one reservation and keeps the invariant. -/
theorem make_reservation_capacity_invariant :
    (∀ (catalog : List Restaurant) (reqs : List BookingRequest),
       CapacityInv catalog (runReservations catalog reqs [])) ∧
    (∀ (catalog : List Restaurant) (db : List Reservation) (rid d t : String)
       (ps : Int) (un up : String), CapacityInv catalog db →
       CapacityInv catalog (make_reservation catalog db rid d t ps un up).2 ∧
       ((make_reservation catalog db rid d t ps un up).2 = db ∧
          (make_reservation catalog db rid d t ps un up).1.success = false ∨
        ∃ rv, (make_reservation catalog db rid d t ps un up).2 = db ++ [rv])) :=
  ⟨fun catalog reqs => runReservations_inv catalog reqs [] (capacityInv_nil catalog),
   fun catalog db rid d t ps un up hInv =>
     make_reservation_step catalog db rid d t ps un up hInv⟩

/-- Closed instance of `make_reservation_capacity_invariant`: after a
sequence of three bookings (two of which fit) at the capacity-4
restaurant, the slot total is at most 4. -/
theorem make_reservation_capacity_invariant_witness :
    findRestaurant cap4Catalog "r1" = some r1 ∧
    slotSum (runReservations cap4Catalog
        [{ restaurant_id := "r1", date := "2025-05-01", time := "19:00",
           party_size := 3, user_name := "Alice", user_phone := "12345" },
         { restaurant_id := "r1", date := "2025-05-01", time := "19:00",
           party_size := 2, user_name := "Bob", user_phone := "23456" },
         { restaurant_id := "r1", date := "2025-05-01", time := "19:00",
           party_size := 1, user_name := "Cara", user_phone := "34567" }] [])
      "r1" "2025-05-01" "19:00" ≤ (r1.capacity : Int) :=
  ⟨by decide,
   make_reservation_capacity_invariant.1 cap4Catalog
     [{ restaurant_id := "r1", date := "2025-05-01", time := "19:00",
        party_size := 3, user_name := "Alice", user_phone := "12345" },
      { restaurant_id := "r1", date := "2025-05-01", time := "19:00",
        party_size := 2, user_name := "Bob", user_phone := "23456" },
      { restaurant_id := "r1", date := "2025-05-01", time := "19:00",
        party_size := 1, user_name := "Cara", user_phone := "34567" }]
     "r1" "2025-05-01" "19:00" r1 (by decide)⟩

end Chatbot
